import Mathlib

/-!
Verification of the stateful control loop of the RustBerry-PoE-Monitor daemon
(`src/main.rs`), as a shallow embedding.

Modelling conventions:
* Instants and durations are natural numbers of seconds.  `Instant::now()`
  becomes an explicit `now : ℕ` argument; `a.duration_since b` is truncated
  subtraction `a - b` (in the loop the later instant is always on the left).
* Temperatures (`f32` in the source) are rationals.  The fan logic only
  compares temperatures, never does arithmetic on them, and on the finite
  decimal values that occur the `f32` order agrees with the rational order.
* Hardware sinks (fan GPIO, SSD1306 display) are external collaborators.  A
  sink call is an emitted `Cmd`; fallibility is an oracle `err : Cmd → Bool`
  saying which calls fail, and the handlers thread `Except Cmd` exactly where
  the Rust `?` operator propagates.
* `fan_controller.rs`, `config.rs` and `display.rs` are not part of the given
  sources; the few facts needed about them (`fan_on`/`fan_off` bodies) are
  modelled from the specification and marked as such.
-/

/-- A hardware sink call: display brightness, display power, fan GPIO writes,
or a full render of the stats snapshot at a pixel offset. -/
inductive Cmd where
  | setBrightness (dimmest : Bool)
  | powerOff
  | powerOn
  | fanOn
  | fanOff
  | render (ip cpu temp ram host : String) (offset : Int × Int)
deriving DecidableEq, Repr

/-- Execute one sink call against the failure oracle: the call either succeeds
or returns the failing command as the error value. -/
def runCmd (err : Cmd → Bool) (c : Cmd) : Except Cmd Unit :=
  if err c then .error c else .ok ()

/-- The oracle under which no hardware call fails. -/
def noErr : Cmd → Bool := fun _ => false

/-- `struct AppState` of `src/main.rs` (lines 23-30). -/
structure AppState where
  last_shift_time : ℕ
  shift_index : ℕ
  shift_offset : Int × Int
  last_periodic_toggle_time : ℕ
  is_display_periodically_on : Bool
  screen_dimmed : Bool
deriving DecidableEq, Repr

/-- `struct SystemStats` of `src/main.rs` (lines 32-39). -/
structure SystemStats where
  ip_address : String
  cpu_usage : String
  cpu_temp : ℚ
  cpu_temp_str : String
  ram_usage : String
  hostname : String
deriving Repr

/-- The fan controller state: hysteresis thresholds plus the commanded run
state, per `struct FanController` used by `src/main.rs` (fields `temp_on`,
`temp_off`, `is_running`). -/
structure FanController where
  temp_on : ℚ
  temp_off : ℚ
  is_running : Bool
deriving DecidableEq, Repr

/-- Modelled from the spec: `FanController::fan_on` lives in
`src/fan_controller.rs`, which is not among the given sources.  Per the spec
("exposes turnOn/turnOff", "issue TurnOn, set is_running=true") it performs one
fan-on hardware write and records the fan as running; a write failure
propagates. -/
def FanController.fan_on (err : Cmd → Bool) (fc : FanController) :
    Except Cmd (FanController × List Cmd) := do
  runCmd err .fanOn
  pure ({ fc with is_running := true }, [.fanOn])

/-- Modelled from the spec: `FanController::fan_off` (also from the missing
`src/fan_controller.rs`) performs one fan-off hardware write and records the
fan as not running; a write failure propagates. -/
def FanController.fan_off (err : Cmd → Bool) (fc : FanController) :
    Except Cmd (FanController × List Cmd) := do
  runCmd err .fanOff
  pure ({ fc with is_running := false }, [.fanOff])

/-- `handle_fan_control` of `src/main.rs` (lines 237-255): while running, turn
off at `cpu_temp <= temp_off`; while stopped, turn on at
`cpu_temp >= temp_on`; otherwise do nothing. -/
def handle_fan_control (err : Cmd → Bool) (fc : FanController) (cpu_temp : ℚ) :
    Except Cmd (FanController × List Cmd) :=
  if fc.is_running then
    if cpu_temp ≤ fc.temp_off then
      fc.fan_off err
    else
      pure (fc, [])
  else if cpu_temp ≥ fc.temp_on then
    fc.fan_on err
  else
    pure (fc, [])

/-- The state/command part of `handle_fan_control` when no hardware call
fails. -/
def fanStepPure (fc : FanController) (cpu_temp : ℚ) : FanController × List Cmd :=
  if fc.is_running then
    if cpu_temp ≤ fc.temp_off then
      ({ fc with is_running := false }, [.fanOff])
    else
      (fc, [])
  else if cpu_temp ≥ fc.temp_on then
    ({ fc with is_running := true }, [.fanOn])
  else
    (fc, [])

theorem handle_fan_control_noErr (fc : FanController) (t : ℚ) :
    handle_fan_control noErr fc t = .ok (fanStepPure fc t) := by
  simp only [handle_fan_control, fanStepPure, FanController.fan_off,
    FanController.fan_on, runCmd, noErr, bind, Except.bind, pure, Except.pure]
  split <;> split <;> rfl

/-- Fan run states along a temperature sequence, starting from `fc`, with no
hardware failures: the commanded state after each sample. -/
def fanRun (fc : FanController) : List ℚ → List Bool
  | [] => []
  | t :: ts =>
    let fc' := (fanStepPure fc t).1
    fc'.is_running :: fanRun fc' ts

/-- `handle_screen_timeout` of `src/main.rs` (lines 151-167): with a nonzero
configured timeout, once uptime reaches it and the screen is not yet dimmed,
set brightness to `Brightness::DIMMEST` and latch `screen_dimmed`. -/
def handle_screen_timeout (err : Cmd → Bool) (start_time now timeout_duration : ℕ)
    (s : AppState) : Except Cmd (AppState × List Cmd) :=
  let elapsed_time := now - start_time
  if timeout_duration > 0 ∧ ¬s.screen_dimmed ∧ elapsed_time ≥ timeout_duration then do
    runCmd err (.setBrightness true)
    pure ({ s with screen_dimmed := true }, [.setBrightness true])
  else
    pure (s, [])

/-- The state/command part of `handle_screen_timeout` when no hardware call
fails. -/
def screenTimeoutPure (start_time now timeout_duration : ℕ) (s : AppState) :
    AppState × List Cmd :=
  if timeout_duration > 0 ∧ ¬s.screen_dimmed ∧ now - start_time ≥ timeout_duration then
    ({ s with screen_dimmed := true }, [.setBrightness true])
  else
    (s, [])

theorem handle_screen_timeout_noErr (start_time now timeout : ℕ) (s : AppState) :
    handle_screen_timeout noErr start_time now timeout s =
      .ok (screenTimeoutPure start_time now timeout s) := by
  simp only [handle_screen_timeout, screenTimeoutPure, runCmd, noErr, bind,
    Except.bind, pure, Except.pure]
  split <;> rfl

/-- `handle_periodic_display` of `src/main.rs` (lines 169-197): when periodic
cycling is enabled, power the display off after `on_duration` of being on, and
back on after `off_duration` of being off, resetting the toggle timestamp each
time. -/
def handle_periodic_display (err : Cmd → Bool) (enable_periodic_off : Bool)
    (now on_duration off_duration : ℕ) (s : AppState) :
    Except Cmd (AppState × List Cmd) :=
  if enable_periodic_off then
    let time_since_last_toggle := now - s.last_periodic_toggle_time
    if s.is_display_periodically_on ∧ time_since_last_toggle ≥ on_duration then do
      runCmd err .powerOff
      pure ({ s with is_display_periodically_on := false,
                     last_periodic_toggle_time := now }, [.powerOff])
    else if ¬s.is_display_periodically_on ∧ time_since_last_toggle ≥ off_duration then do
      runCmd err .powerOn
      pure ({ s with is_display_periodically_on := true,
                     last_periodic_toggle_time := now }, [.powerOn])
    else
      pure (s, [])
  else
    pure (s, [])

/-- The state/command part of `handle_periodic_display` when no hardware call
fails. -/
def periodicPure (enable_periodic_off : Bool) (now on_duration off_duration : ℕ)
    (s : AppState) : AppState × List Cmd :=
  if enable_periodic_off then
    if s.is_display_periodically_on ∧ now - s.last_periodic_toggle_time ≥ on_duration then
      ({ s with is_display_periodically_on := false,
                last_periodic_toggle_time := now }, [.powerOff])
    else if ¬s.is_display_periodically_on ∧ now - s.last_periodic_toggle_time ≥ off_duration then
      ({ s with is_display_periodically_on := true,
                last_periodic_toggle_time := now }, [.powerOn])
    else
      (s, [])
  else
    (s, [])

theorem handle_periodic_display_noErr (enable : Bool) (now on_d off_d : ℕ)
    (s : AppState) :
    handle_periodic_display noErr enable now on_d off_d s =
      .ok (periodicPure enable now on_d off_d s) := by
  simp only [handle_periodic_display, periodicPure, runCmd, noErr, bind,
    Except.bind, pure, Except.pure]
  split <;> [skip; rfl]
  split <;> [rfl; split <;> rfl]

/-- `let shift_pattern = [Point::new(0, 0), Point::new(1, 0)]` of
`src/main.rs` (line 94). -/
def shift_pattern : List (Int × Int) := [(0, 0), (1, 0)]

/-- `update_pixel_shift` of `src/main.rs` (lines 199-214): every
`shift_interval` of wall-clock time, advance the index modulo the pattern
length, take the pattern entry as the new offset, and reset the timer.  Issues
no hardware call. -/
def update_pixel_shift (now shift_interval : ℕ) (pat : List (Int × Int))
    (s : AppState) : AppState :=
  if now - s.last_shift_time ≥ shift_interval then
    let idx := (s.shift_index + 1) % pat.length
    { s with shift_index := idx,
             shift_offset := pat.getD idx (0, 0),
             last_shift_time := now }
  else
    s

/-- Rust `str::trim`: drop leading and trailing whitespace.  Modelled over
the underlying character list so that it computes by structural recursion. -/
def rustTrim (s : String) : String :=
  ⟨((s.data.dropWhile Char.isWhitespace).reverse.dropWhile Char.isWhitespace).reverse⟩

/-- Chunks of consecutive non-whitespace characters, accumulator-style:
the recursion behind `splitWhitespace`. -/
def splitWsAux : List Char → List Char → List (List Char)
  | [], acc => if acc.isEmpty then [] else [acc.reverse]
  | c :: cs, acc =>
    if c.isWhitespace then
      if acc.isEmpty then splitWsAux cs [] else acc.reverse :: splitWsAux cs []
    else
      splitWsAux cs (c :: acc)

/-- Rust `str::split_whitespace` as used by `get_ip_address`: the maximal
whitespace-free chunks, in order, empty chunks dropped. -/
def splitWhitespace (s : String) : List String :=
  (splitWsAux s.data []).map fun l => ⟨l⟩

/-- `get_cpu_temperature` of `src/main.rs` (lines 292-300).  The file read is
an `Option String` input (`fs::read_to_string(...)` outcome); `parseF32` stands
for the external `str::parse::<f32>`.  Read failure yields 0.0; parse failure
yields 0.0/1000.0 = 0.0. -/
def get_cpu_temperature (parseF32 : String → Option ℚ) (readResult : Option String) : ℚ :=
  match readResult with
  | some contents => ((parseF32 (rustTrim contents)).getD 0) / 1000
  | none => 0

/-- `get_ip_address` of `src/main.rs` (lines 257-274).  The input models the
outcome of `Command::new("hostname").arg("-I").output()`: `none` when the
command could not run, otherwise the success flag and the UTF-8 decoding of
stdout (`none` for invalid UTF-8).  Any failure falls back to "0.0.0.0". -/
def get_ip_address (output : Option (Bool × Option String)) : String :=
  rustTrim ((output.bind fun o =>
      if o.1 then o.2.bind fun s => (splitWhitespace s).head?
      else none).getD "0.0.0.0")

/-- `get_hostname` of `src/main.rs` (lines 276-290), same output modelling,
falling back to "UNKNOWN". -/
def get_hostname (output : Option (Bool × Option String)) : String :=
  rustTrim ((output.bind fun o =>
      if o.1 then o.2
      else none).getD "UNKNOWN")

/-- Per-tick sensor environment: the outcomes of the external reads performed
by `gather_stats`.  `cpu_usage`/`ram_usage` arrive already formatted, standing
for the sysinfo values. -/
structure SensorInput where
  temp_file : Option String
  ip_cmd : Option (Bool × Option String)
  host_cmd : Option (Bool × Option String)
  cpu_usage : String
  ram_usage : String

/-- `gather_stats` of `src/main.rs` (lines 216-235); `fmt1` stands for the
external `format!("{:.1}", _)`.  Total: no error path exists. -/
def gather_stats (parseF32 : String → Option ℚ) (fmt1 : ℚ → String)
    (inp : SensorInput) : SystemStats :=
  let ip_address := get_ip_address inp.ip_cmd
  let hostname := get_hostname inp.host_cmd
  let cpu_temp := get_cpu_temperature parseF32 inp.temp_file
  let cpu_temp_str := fmt1 cpu_temp
  { ip_address := ip_address
    cpu_usage := inp.cpu_usage
    cpu_temp := cpu_temp
    cpu_temp_str := cpu_temp_str
    ram_usage := inp.ram_usage
    hostname := hostname }

/-- The loop-invariant configuration of `main` (`src/main.rs` lines 90-95):
durations read once from the config, the pixel-shift constants, and the
process `start_time`.  `parseF32`/`fmt1` stand for the external float
parse/format routines used by `gather_stats`. -/
structure LoopCtx where
  enable_periodic_off : Bool
  screen_timeout_duration : ℕ
  periodic_on_duration : ℕ
  periodic_off_duration : ℕ
  start_time : ℕ
  parseF32 : String → Option ℚ
  fmt1 : ℚ → String

/-- One iteration of `main`'s loop (`src/main.rs` lines 108-148), in source
order: dim step, periodic step, pixel shift, stats, fan step, gated render.
Errors from any sink call propagate out, aborting the rest of the tick.
Returns the updated state, fan controller, and the sink calls issued. -/
def tick (ctx : LoopCtx) (err : Cmd → Bool) (now : ℕ) (inp : SensorInput)
    (s : AppState) (fc : FanController) :
    Except Cmd (AppState × FanController × List Cmd) := do
  let (s, c1) ← handle_screen_timeout err ctx.start_time now ctx.screen_timeout_duration s
  let (s, c2) ← handle_periodic_display err ctx.enable_periodic_off now
    ctx.periodic_on_duration ctx.periodic_off_duration s
  let s := update_pixel_shift now 60 shift_pattern s
  let stats := gather_stats ctx.parseF32 ctx.fmt1 inp
  let (fc, c3) ← handle_fan_control err fc stats.cpu_temp
  let c4 ←
    if s.is_display_periodically_on then do
      let rc := Cmd.render stats.ip_address stats.cpu_usage stats.cpu_temp_str
        stats.ram_usage stats.hostname s.shift_offset
      runCmd err rc
      pure [rc]
    else
      pure ([] : List Cmd)
  pure (s, fc, c1 ++ (c2 ++ (c3 ++ c4)))

/-- The state/command part of one tick when no hardware call fails. -/
def tickPure (ctx : LoopCtx) (now : ℕ) (inp : SensorInput) (s : AppState)
    (fc : FanController) : AppState × FanController × List Cmd :=
  let p1 := screenTimeoutPure ctx.start_time now ctx.screen_timeout_duration s
  let p2 := periodicPure ctx.enable_periodic_off now ctx.periodic_on_duration
    ctx.periodic_off_duration p1.1
  let s2 := update_pixel_shift now 60 shift_pattern p2.1
  let stats := gather_stats ctx.parseF32 ctx.fmt1 inp
  let p3 := fanStepPure fc stats.cpu_temp
  let c4 : List Cmd :=
    if s2.is_display_periodically_on then
      [Cmd.render stats.ip_address stats.cpu_usage stats.cpu_temp_str
        stats.ram_usage stats.hostname s2.shift_offset]
    else
      []
  (s2, p3.1, p1.2 ++ (p2.2 ++ (p3.2 ++ c4)))

theorem tick_noErr (ctx : LoopCtx) (now : ℕ) (inp : SensorInput) (s : AppState)
    (fc : FanController) :
    tick ctx noErr now inp s fc = .ok (tickPure ctx now inp s fc) := by
  simp only [tick, tickPure, handle_screen_timeout_noErr,
    handle_periodic_display_noErr, handle_fan_control_noErr, runCmd, noErr,
    bind, Except.bind, pure, Except.pure]
  split <;> rfl

/-- The `AppState` constructed in `main` (`src/main.rs` lines 97-104), with
both timers anchored at construction time `t0`. -/
def initState (t0 : ℕ) : AppState :=
  { last_shift_time := t0
    shift_index := 0
    shift_offset := (0, 0)
    last_periodic_toggle_time := t0
    is_display_periodically_on := true
    screen_dimmed := false }

/-- The unconditional `fan_controller.fan_off()?` executed by `main`
(`src/main.rs` line 88) after constructing the controller, before the loop. -/
def startupFanOff (err : Cmd → Bool) (fc : FanController) :
    Except Cmd (FanController × List Cmd) :=
  fc.fan_off err

/-- State after `n` loop iterations, where tick `i` (`0 ≤ i < n`) runs at time
`times i` with sensor outcome `inps i`.  A tick's error stops the loop: every
later iteration returns the same error, mirroring `?` propagating out of
`main`. -/
def loopState (ctx : LoopCtx) (err : Cmd → Bool) (times : ℕ → ℕ)
    (inps : ℕ → SensorInput) (s0 : AppState) (fc0 : FanController) :
    ℕ → Except Cmd (AppState × FanController)
  | 0 => .ok (s0, fc0)
  | n + 1 =>
    match loopState ctx err times inps s0 fc0 n with
    | .error e => .error e
    | .ok (s, fc) =>
      match tick ctx err (times n) (inps n) s fc with
      | .error e => .error e
      | .ok (s', fc', _) => .ok (s', fc')

/-- Claim C1: fan hysteresis step contract.  On a tick with sampled
temperature `t`: running ∧ `t ≤ temp_off` issues exactly one fan-off write and
clears `is_running`; stopped ∧ `t ≥ temp_on` issues exactly one fan-on write
and sets `is_running`; otherwise no write is issued and the state is
unchanged (so an on fan stays on until a sample drops to `temp_off`).  With
`temp_on = 70`, `temp_off = 60` the sample sequence [50,65,72,68,61,59]
produces the run-state sequence [off,off,on,on,on,off]. -/
theorem C1_fan_hysteresis :
    (∀ (fc : FanController) (t : ℚ), fc.is_running = true → t ≤ fc.temp_off →
      handle_fan_control noErr fc t =
        .ok ({ fc with is_running := false }, [Cmd.fanOff])) ∧
    (∀ (fc : FanController) (t : ℚ), fc.is_running = false → t ≥ fc.temp_on →
      handle_fan_control noErr fc t =
        .ok ({ fc with is_running := true }, [Cmd.fanOn])) ∧
    (∀ (fc : FanController) (t : ℚ), fc.is_running = true → fc.temp_off < t →
      handle_fan_control noErr fc t = .ok (fc, [])) ∧
    (∀ (fc : FanController) (t : ℚ), fc.is_running = false → t < fc.temp_on →
      handle_fan_control noErr fc t = .ok (fc, [])) ∧
    fanRun ⟨70, 60, false⟩ [50, 65, 72, 68, 61, 59] =
      [false, false, true, true, true, false] := by
  refine ⟨?_, ?_, ?_, ?_, by decide⟩
  · intro fc t h1 h2
    simp [handle_fan_control_noErr, fanStepPure, h1, h2]
  · intro fc t h1 h2
    simp [handle_fan_control_noErr, fanStepPure, h1, h2]
  · intro fc t h1 h2
    simp [handle_fan_control_noErr, fanStepPure, h1, not_le.mpr h2]
  · intro fc t h1 h2
    simp [handle_fan_control_noErr, fanStepPure, h1, not_le.mpr h2]

/-- Witness for C1 at concrete inputs: a running fan at 55° with
`temp_off = 60` turns off; a stopped fan at 72° with `temp_on = 70` turns on;
dead-band samples leave both unchanged. -/
theorem C1_fan_hysteresis_witness :
    handle_fan_control noErr ⟨70, 60, true⟩ 55 =
      .ok (⟨70, 60, false⟩, [Cmd.fanOff]) ∧
    handle_fan_control noErr ⟨70, 60, false⟩ 72 =
      .ok (⟨70, 60, true⟩, [Cmd.fanOn]) ∧
    handle_fan_control noErr ⟨70, 60, true⟩ 65 = .ok (⟨70, 60, true⟩, []) ∧
    handle_fan_control noErr ⟨70, 60, false⟩ 65 = .ok (⟨70, 60, false⟩, []) :=
  ⟨C1_fan_hysteresis.1 ⟨70, 60, true⟩ 55 rfl (by norm_num),
   C1_fan_hysteresis.2.1 ⟨70, 60, false⟩ 72 rfl (by norm_num),
   C1_fan_hysteresis.2.2.1 ⟨70, 60, true⟩ 65 rfl (by norm_num),
   C1_fan_hysteresis.2.2.2.1 ⟨70, 60, false⟩ 65 rfl (by norm_num)⟩

/-- Claim C9: nothing in the per-tick fan logic guards against a malformed
configuration with `temp_on ≤ temp_off`.  On any tick whose sample satisfies
`temp_on ≤ t ≤ temp_off`, the controller issues a hardware write and flips
`is_running`, so the fan toggles on every such tick. -/
theorem C9_malformed_config_oscillation (fc : FanController) (t : ℚ)
    (h_cfg : fc.temp_on ≤ fc.temp_off) (h1 : fc.temp_on ≤ t)
    (h2 : t ≤ fc.temp_off) :
    handle_fan_control noErr fc t =
      .ok ({ fc with is_running := !fc.is_running },
        [if fc.is_running then Cmd.fanOff else Cmd.fanOn]) := by
  cases h : fc.is_running with
  | true => simp [handle_fan_control_noErr, fanStepPure, h, h2]
  | false => simp [handle_fan_control_noErr, fanStepPure, h, h1]

/-- Witness for C9: with `temp_on = 60 ≤ temp_off = 70` and samples inside
[60,70], two consecutive ticks toggle the fan on and straight back off. -/
theorem C9_malformed_config_oscillation_witness :
    handle_fan_control noErr ⟨60, 70, false⟩ 65 =
      .ok (⟨60, 70, true⟩, [Cmd.fanOn]) ∧
    handle_fan_control noErr ⟨60, 70, true⟩ 65 =
      .ok (⟨60, 70, false⟩, [Cmd.fanOff]) :=
  ⟨C9_malformed_config_oscillation ⟨60, 70, false⟩ 65 (by norm_num)
      (by norm_num) (by norm_num),
    C9_malformed_config_oscillation ⟨60, 70, true⟩ 65 (by norm_num)
      (by norm_num) (by norm_num)⟩

/-- Claim C10: at startup (`src/main.rs` line 88), after the fan controller is
constructed and before the first loop iteration, exactly one fan-off hardware
write is issued unconditionally — the step takes no temperature input and
makes no state-transition decision — and the loop starts its first tick with
`is_running = false`. -/
theorem C10_startup_fan_off (err : Cmd → Bool) (fc : FanController)
    (h : err Cmd.fanOff = false) :
    startupFanOff err fc = .ok ({ fc with is_running := false }, [Cmd.fanOff]) := by
  simp [startupFanOff, FanController.fan_off, runCmd, h, bind, Except.bind,
    pure, Except.pure]

/-- Witness for C10 at a concrete controller that is currently running. -/
theorem C10_startup_fan_off_witness :
    startupFanOff noErr ⟨70, 60, true⟩ = .ok (⟨70, 60, false⟩, [Cmd.fanOff]) :=
  C10_startup_fan_off noErr ⟨70, 60, true⟩ rfl

theorem screenTimeoutPure_periodic_flag (st n td : ℕ) (s : AppState) :
    (screenTimeoutPure st n td s).1.is_display_periodically_on =
      s.is_display_periodically_on := by
  unfold screenTimeoutPure; split <;> rfl

theorem screenTimeoutPure_toggle_time (st n td : ℕ) (s : AppState) :
    (screenTimeoutPure st n td s).1.last_periodic_toggle_time =
      s.last_periodic_toggle_time := by
  unfold screenTimeoutPure; split <;> rfl

theorem screenTimeoutPure_shift_index (st n td : ℕ) (s : AppState) :
    (screenTimeoutPure st n td s).1.shift_index = s.shift_index := by
  unfold screenTimeoutPure; split <;> rfl

theorem screenTimeoutPure_shift_offset (st n td : ℕ) (s : AppState) :
    (screenTimeoutPure st n td s).1.shift_offset = s.shift_offset := by
  unfold screenTimeoutPure; split <;> rfl

theorem screenTimeoutPure_shift_time (st n td : ℕ) (s : AppState) :
    (screenTimeoutPure st n td s).1.last_shift_time = s.last_shift_time := by
  unfold screenTimeoutPure; split <;> rfl

theorem periodicPure_dimmed (e : Bool) (n a b : ℕ) (s : AppState) :
    (periodicPure e n a b s).1.screen_dimmed = s.screen_dimmed := by
  unfold periodicPure; split <;> [skip; rfl]; split <;> [rfl; split <;> rfl]

theorem periodicPure_shift_index (e : Bool) (n a b : ℕ) (s : AppState) :
    (periodicPure e n a b s).1.shift_index = s.shift_index := by
  unfold periodicPure; split <;> [skip; rfl]; split <;> [rfl; split <;> rfl]

theorem periodicPure_shift_offset (e : Bool) (n a b : ℕ) (s : AppState) :
    (periodicPure e n a b s).1.shift_offset = s.shift_offset := by
  unfold periodicPure; split <;> [skip; rfl]; split <;> [rfl; split <;> rfl]

theorem periodicPure_shift_time (e : Bool) (n a b : ℕ) (s : AppState) :
    (periodicPure e n a b s).1.last_shift_time = s.last_shift_time := by
  unfold periodicPure; split <;> [skip; rfl]; split <;> [rfl; split <;> rfl]

theorem update_pixel_shift_dimmed (n d : ℕ) (p : List (Int × Int)) (s : AppState) :
    (update_pixel_shift n d p s).screen_dimmed = s.screen_dimmed := by
  unfold update_pixel_shift; split <;> rfl

theorem update_pixel_shift_periodic_flag (n d : ℕ) (p : List (Int × Int)) (s : AppState) :
    (update_pixel_shift n d p s).is_display_periodically_on =
      s.is_display_periodically_on := by
  unfold update_pixel_shift; split <;> rfl

theorem update_pixel_shift_toggle_time (n d : ℕ) (p : List (Int × Int)) (s : AppState) :
    (update_pixel_shift n d p s).last_periodic_toggle_time =
      s.last_periodic_toggle_time := by
  unfold update_pixel_shift; split <;> rfl

/-- Claim C5: anti-burn-in pixel shift.  On a tick, once 60s have elapsed
since the last shift the index advances modulo the pattern length 2, the
offset becomes the pattern entry at the new index, and the timer resets;
otherwise the shift state is untouched.  Two consecutive advances restore the
original offset while a single advance changes it (the offset cycles through
exactly the 2 pattern values), and the update is independent of the display
flags (the fan state is not even an input to it). -/
theorem C5_pixel_shift :
    (∀ (now : ℕ) (s : AppState), now - s.last_shift_time ≥ 60 →
      update_pixel_shift now 60 shift_pattern s =
        { s with shift_index := (s.shift_index + 1) % 2,
                 shift_offset := shift_pattern.getD ((s.shift_index + 1) % 2) (0, 0),
                 last_shift_time := now }) ∧
    (∀ (now : ℕ) (s : AppState), now - s.last_shift_time < 60 →
      update_pixel_shift now 60 shift_pattern s = s) ∧
    (∀ (n1 n2 : ℕ) (s : AppState), s.shift_index < 2 →
      s.shift_offset = shift_pattern.getD s.shift_index (0, 0) →
      n1 - s.last_shift_time ≥ 60 → n2 - n1 ≥ 60 →
      (update_pixel_shift n2 60 shift_pattern
        (update_pixel_shift n1 60 shift_pattern s)).shift_offset = s.shift_offset) ∧
    (∀ (n1 : ℕ) (s : AppState), s.shift_index < 2 →
      s.shift_offset = shift_pattern.getD s.shift_index (0, 0) →
      n1 - s.last_shift_time ≥ 60 →
      (update_pixel_shift n1 60 shift_pattern s).shift_offset ≠ s.shift_offset) ∧
    (∀ (now d : ℕ) (p : List (Int × Int)) (s : AppState) (b : Bool),
      update_pixel_shift now d p { s with is_display_periodically_on := b } =
        { update_pixel_shift now d p s with is_display_periodically_on := b }) ∧
    (∀ (now d : ℕ) (p : List (Int × Int)) (s : AppState) (b : Bool),
      update_pixel_shift now d p { s with screen_dimmed := b } =
        { update_pixel_shift now d p s with screen_dimmed := b }) := by
  refine ⟨?_, ?_, ?_, ?_, ?_, ?_⟩
  · intro now s h
    simp [update_pixel_shift, shift_pattern, h]
  · intro now s h
    simp [update_pixel_shift, Nat.not_le.mpr h]
  · intro n1 n2 s hidx hoff h1 h2
    rcases (by omega : s.shift_index = 0 ∨ s.shift_index = 1) with h | h <;>
      simp [update_pixel_shift, shift_pattern, h, h1, h2, hoff]
  · intro n1 s hidx hoff h1
    rcases (by omega : s.shift_index = 0 ∨ s.shift_index = 1) with h | h <;>
      simp [update_pixel_shift, shift_pattern, h, h1, hoff] <;> decide
  · intro now d p s b
    cases s
    simp only [update_pixel_shift]
    split <;> rfl
  · intro now d p s b
    cases s
    simp only [update_pixel_shift]
    split <;> rfl

/-- Witness for C5 at the initial state: an advance at t=60, a no-op at t=30,
a double advance at t=60 and t=120 restoring the offset, and a single advance
changing it. -/
theorem C5_pixel_shift_witness :
    (update_pixel_shift 60 60 shift_pattern (initState 0) =
      { initState 0 with
          shift_index := ((initState 0).shift_index + 1) % 2,
          shift_offset := shift_pattern.getD (((initState 0).shift_index + 1) % 2) (0, 0),
          last_shift_time := 60 }) ∧
    update_pixel_shift 30 60 shift_pattern (initState 0) = initState 0 ∧
    (update_pixel_shift 120 60 shift_pattern
      (update_pixel_shift 60 60 shift_pattern (initState 0))).shift_offset =
        (initState 0).shift_offset ∧
    (update_pixel_shift 60 60 shift_pattern (initState 0)).shift_offset ≠
      (initState 0).shift_offset :=
  ⟨C5_pixel_shift.1 60 (initState 0) (by decide),
   C5_pixel_shift.2.1 30 (initState 0) (by decide),
   C5_pixel_shift.2.2.1 60 120 (initState 0) (by decide) (by decide)
     (by decide) (by decide),
   C5_pixel_shift.2.2.2.1 60 (initState 0) (by decide) (by decide) (by decide)⟩

/-- Whether a sink call is a render of the stats snapshot. -/
def Cmd.isRender : Cmd → Bool
  | .render _ _ _ _ _ _ => true
  | _ => false

/-- Whether a sink call is a brightness change. -/
def Cmd.isSetBrightness : Cmd → Bool
  | .setBrightness _ => true
  | _ => false

theorem screenTimeoutPure_filter_render (st n td : ℕ) (s : AppState) :
    (screenTimeoutPure st n td s).2.filter Cmd.isRender = [] := by
  unfold screenTimeoutPure; split <;> rfl

theorem screenTimeoutPure_filter_brightness (st n td : ℕ) (s : AppState) :
    (screenTimeoutPure st n td s).2.filter Cmd.isSetBrightness =
      (screenTimeoutPure st n td s).2 := by
  unfold screenTimeoutPure; split <;> rfl

theorem periodicPure_filter_render (e : Bool) (n a b : ℕ) (s : AppState) :
    (periodicPure e n a b s).2.filter Cmd.isRender = [] := by
  unfold periodicPure; split <;> [skip; rfl]; split <;> [rfl; split <;> rfl]

theorem periodicPure_filter_brightness (e : Bool) (n a b : ℕ) (s : AppState) :
    (periodicPure e n a b s).2.filter Cmd.isSetBrightness = [] := by
  unfold periodicPure; split <;> [skip; rfl]; split <;> [rfl; split <;> rfl]

theorem fanStepPure_filter_render (fc : FanController) (t : ℚ) :
    (fanStepPure fc t).2.filter Cmd.isRender = [] := by
  unfold fanStepPure; split <;> [split <;> rfl; split <;> rfl]

theorem fanStepPure_filter_brightness (fc : FanController) (t : ℚ) :
    (fanStepPure fc t).2.filter Cmd.isSetBrightness = [] := by
  unfold fanStepPure; split <;> [split <;> rfl; split <;> rfl]

/-- The render call issued by `main` (`src/main.rs` lines 134-145): the stats
snapshot fields together with the current pixel-shift offset. -/
def renderCmd (stats : SystemStats) (offset : Int × Int) : Cmd :=
  Cmd.render stats.ip_address stats.cpu_usage stats.cpu_temp_str
    stats.ram_usage stats.hostname offset

/-- Claim C4: render gating.  On every tick (here: every tick on which no
hardware call fails, so the tick completes), the command stream contains
exactly one render call when `is_display_periodically_on` is true at the
render step and none when it is false, and the render that does occur carries
the `shift_offset` of the tick's final state, i.e. as updated by this tick's
pixel-shift step. -/
theorem C4_render_gating (ctx : LoopCtx) (now : ℕ) (inp : SensorInput)
    (s : AppState) (fc : FanController) :
    tick ctx noErr now inp s fc = .ok (tickPure ctx now inp s fc) ∧
    (tickPure ctx now inp s fc).2.2.filter Cmd.isRender =
      (if (tickPure ctx now inp s fc).1.is_display_periodically_on then
        [renderCmd (gather_stats ctx.parseF32 ctx.fmt1 inp)
          (tickPure ctx now inp s fc).1.shift_offset]
      else []) := by
  refine ⟨tick_noErr ctx now inp s fc, ?_⟩
  simp only [tickPure, renderCmd, List.filter_append,
    screenTimeoutPure_filter_render, periodicPure_filter_render,
    fanStepPure_filter_render, List.nil_append]
  split <;> rfl

/-- Command lists emitted by the periodic step alone along a list of tick
times, with cycling enabled and no hardware failures. -/
def periodicRun (on_d off_d : ℕ) (s : AppState) : List ℕ → List (List Cmd)
  | [] => []
  | t :: ts =>
    let p := periodicPure true t on_d off_d s
    p.2 :: periodicRun on_d off_d p.1 ts

/-- Claim C2: periodic display cycling step.  With cycling enabled: on while
`now - last_toggle ≥ on_duration` issues exactly one powerOff, clears the
flag, resets the timestamp; off while the elapsed time reaches `off_duration`
issues exactly one powerOn, sets the flag, resets the timestamp; otherwise no
power command and no state change.  With on=600s, off=60s, starting on at
t=0 and ticks every 5s, powerOff fires exactly at the first tick at or after
t=600 (tick 120) and powerOn exactly at the first tick at or after t=660
(tick 132). -/
theorem C2_periodic_display :
    (∀ (now on_d off_d : ℕ) (s : AppState),
      s.is_display_periodically_on = true →
      now - s.last_periodic_toggle_time ≥ on_d →
      handle_periodic_display noErr true now on_d off_d s =
        .ok ({ s with is_display_periodically_on := false,
                      last_periodic_toggle_time := now }, [Cmd.powerOff])) ∧
    (∀ (now on_d off_d : ℕ) (s : AppState),
      s.is_display_periodically_on = false →
      now - s.last_periodic_toggle_time ≥ off_d →
      handle_periodic_display noErr true now on_d off_d s =
        .ok ({ s with is_display_periodically_on := true,
                      last_periodic_toggle_time := now }, [Cmd.powerOn])) ∧
    (∀ (now on_d off_d : ℕ) (s : AppState),
      s.is_display_periodically_on = true →
      now - s.last_periodic_toggle_time < on_d →
      handle_periodic_display noErr true now on_d off_d s = .ok (s, [])) ∧
    (∀ (now on_d off_d : ℕ) (s : AppState),
      s.is_display_periodically_on = false →
      now - s.last_periodic_toggle_time < off_d →
      handle_periodic_display noErr true now on_d off_d s = .ok (s, [])) ∧
    periodicRun 600 60 (initState 0) ((List.range 135).map (fun i => 5 * i)) =
      List.replicate 120 [] ++ [[Cmd.powerOff]] ++ List.replicate 11 [] ++
        [[Cmd.powerOn]] ++ List.replicate 2 [] := by
  refine ⟨?_, ?_, ?_, ?_, by decide⟩
  · intro now on_d off_d s h1 h2
    simp [handle_periodic_display_noErr, periodicPure, h1, h2]
  · intro now on_d off_d s h1 h2
    simp [handle_periodic_display_noErr, periodicPure, h1, h2]
  · intro now on_d off_d s h1 h2
    simp [handle_periodic_display_noErr, periodicPure, h1, Nat.not_le.mpr h2]
  · intro now on_d off_d s h1 h2
    simp [handle_periodic_display_noErr, periodicPure, h1, Nat.not_le.mpr h2]

/-- Witness for C2: the powerOff transition at t=600 after being on since
t=0, the powerOn transition after 60s of being off, and both dead-band
no-ops at concrete times. -/
theorem C2_periodic_display_witness :
    handle_periodic_display noErr true 600 600 60 (initState 0) =
      .ok ({ initState 0 with is_display_periodically_on := false,
                              last_periodic_toggle_time := 600 }, [Cmd.powerOff]) ∧
    handle_periodic_display noErr true 660 600 60
        { initState 0 with is_display_periodically_on := false,
                           last_periodic_toggle_time := 600 } =
      .ok ({ initState 0 with is_display_periodically_on := true,
                              last_periodic_toggle_time := 660 }, [Cmd.powerOn]) ∧
    handle_periodic_display noErr true 595 600 60 (initState 0) =
      .ok (initState 0, []) ∧
    handle_periodic_display noErr true 655 600 60
        { initState 0 with is_display_periodically_on := false,
                           last_periodic_toggle_time := 600 } =
      .ok ({ initState 0 with is_display_periodically_on := false,
                              last_periodic_toggle_time := 600 }, []) :=
  ⟨C2_periodic_display.1 600 600 60 (initState 0) rfl (by decide),
   C2_periodic_display.2.1 660 600 60
     { initState 0 with is_display_periodically_on := false,
                        last_periodic_toggle_time := 600 } rfl (by decide),
   C2_periodic_display.2.2.1 595 600 60 (initState 0) rfl (by decide),
   C2_periodic_display.2.2.2.1 655 600 60
     { initState 0 with is_display_periodically_on := false,
                        last_periodic_toggle_time := 600 } rfl (by decide)⟩

/-- The loop trace when no hardware call fails: state and fan controller
after `n` ticks, tick `i` running at time `times i` with sensor outcome
`inps i`. -/
def pureLoop (ctx : LoopCtx) (times : ℕ → ℕ) (inps : ℕ → SensorInput)
    (s0 : AppState) (fc0 : FanController) : ℕ → AppState × FanController
  | 0 => (s0, fc0)
  | n + 1 =>
    let p := pureLoop ctx times inps s0 fc0 n
    let r := tickPure ctx (times n) (inps n) p.1 p.2
    (r.1, r.2.1)

theorem loopState_noErr (ctx : LoopCtx) (times : ℕ → ℕ) (inps : ℕ → SensorInput)
    (s0 : AppState) (fc0 : FanController) (n : ℕ) :
    loopState ctx noErr times inps s0 fc0 n =
      .ok (pureLoop ctx times inps s0 fc0 n) := by
  induction n with
  | zero => rfl
  | succ n ih => simp [loopState, ih, tick_noErr, pureLoop]

theorem tickPure_dimmed_eq (ctx : LoopCtx) (now : ℕ) (inp : SensorInput)
    (s : AppState) (fc : FanController) :
    (tickPure ctx now inp s fc).1.screen_dimmed =
      (screenTimeoutPure ctx.start_time now ctx.screen_timeout_duration s).1.screen_dimmed := by
  simp only [tickPure, update_pixel_shift_dimmed, periodicPure_dimmed]

theorem tickPure_filter_brightness (ctx : LoopCtx) (now : ℕ) (inp : SensorInput)
    (s : AppState) (fc : FanController) :
    (tickPure ctx now inp s fc).2.2.filter Cmd.isSetBrightness =
      (screenTimeoutPure ctx.start_time now ctx.screen_timeout_duration s).2 := by
  simp only [tickPure, List.filter_append, screenTimeoutPure_filter_brightness,
    periodicPure_filter_brightness, fanStepPure_filter_brightness,
    List.nil_append]
  split <;> simp [Cmd.isSetBrightness]

theorem tickPure_dimmed_mono (ctx : LoopCtx) (now : ℕ) (inp : SensorInput)
    (s : AppState) (fc : FanController) (h : s.screen_dimmed = true) :
    (tickPure ctx now inp s fc).1.screen_dimmed = true := by
  rw [tickPure_dimmed_eq]
  unfold screenTimeoutPure
  simp [h]

/-- Claim C3: dim-on-timeout is a one-shot monotone latch.  A zero timeout
never dims (for any failure oracle at the handler, and over a whole tick);
with a positive timeout, the first tick at which the screen is undimmed and
uptime has reached the timeout issues exactly one minimum-brightness command
and latches `screen_dimmed`; before that tick no brightness command is
issued, and once latched no tick ever issues another or resets the flag —
along any loop trace, `screen_dimmed` is monotone, so it flips false→true at
most once per process lifetime. -/
theorem C3_dim_latch :
    (∀ (err : Cmd → Bool) (st now : ℕ) (s : AppState),
      handle_screen_timeout err st now 0 s = .ok (s, [])) ∧
    (∀ (ctx : LoopCtx) (now : ℕ) (inp : SensorInput) (s : AppState)
        (fc : FanController), ctx.screen_timeout_duration = 0 →
      (tickPure ctx now inp s fc).2.2.filter Cmd.isSetBrightness = [] ∧
      (tickPure ctx now inp s fc).1.screen_dimmed = s.screen_dimmed) ∧
    (∀ (ctx : LoopCtx) (now : ℕ) (inp : SensorInput) (s : AppState)
        (fc : FanController), 0 < ctx.screen_timeout_duration →
      s.screen_dimmed = false →
      now - ctx.start_time ≥ ctx.screen_timeout_duration →
      (tickPure ctx now inp s fc).2.2.filter Cmd.isSetBrightness =
        [Cmd.setBrightness true] ∧
      (tickPure ctx now inp s fc).1.screen_dimmed = true) ∧
    (∀ (ctx : LoopCtx) (now : ℕ) (inp : SensorInput) (s : AppState)
        (fc : FanController), s.screen_dimmed = false →
      now - ctx.start_time < ctx.screen_timeout_duration →
      (tickPure ctx now inp s fc).2.2.filter Cmd.isSetBrightness = [] ∧
      (tickPure ctx now inp s fc).1.screen_dimmed = false) ∧
    (∀ (ctx : LoopCtx) (now : ℕ) (inp : SensorInput) (s : AppState)
        (fc : FanController), s.screen_dimmed = true →
      (tickPure ctx now inp s fc).2.2.filter Cmd.isSetBrightness = [] ∧
      (tickPure ctx now inp s fc).1.screen_dimmed = true) ∧
    (∀ (ctx : LoopCtx) (times : ℕ → ℕ) (inps : ℕ → SensorInput)
        (s0 : AppState) (fc0 : FanController) (i j : ℕ), i ≤ j →
      (pureLoop ctx times inps s0 fc0 i).1.screen_dimmed = true →
      (pureLoop ctx times inps s0 fc0 j).1.screen_dimmed = true) := by
  refine ⟨?_, ?_, ?_, ?_, ?_, ?_⟩
  · intro err st now s
    simp [handle_screen_timeout, pure, Except.pure]
  · intro ctx now inp s fc h
    rw [tickPure_filter_brightness, tickPure_dimmed_eq]
    unfold screenTimeoutPure
    simp [h]
  · intro ctx now inp s fc h1 h2 h3
    rw [tickPure_filter_brightness, tickPure_dimmed_eq]
    unfold screenTimeoutPure
    simp [h1, h2, h3]
  · intro ctx now inp s fc h1 h2
    rw [tickPure_filter_brightness, tickPure_dimmed_eq]
    unfold screenTimeoutPure
    simp [h1, Nat.not_le.mpr h2]
  · intro ctx now inp s fc h
    exact ⟨by rw [tickPure_filter_brightness]; unfold screenTimeoutPure; simp [h],
      tickPure_dimmed_mono ctx now inp s fc h⟩
  · intro ctx times inps s0 fc0 i j hij hdim
    induction j, hij using Nat.le_induction with
    | base => exact hdim
    | succ j hij ih =>
      exact tickPure_dimmed_mono ctx (times j) (inps j)
        (pureLoop ctx times inps s0 fc0 j).1 (pureLoop ctx times inps s0 fc0 j).2 ih

/-- A concrete loop configuration with a 300s dim timeout, used for concrete
evaluations. -/
def ctxDim : LoopCtx := ⟨false, 300, 600, 60, 0, fun _ => none, fun _ => "0.0"⟩

/-- A concrete loop configuration with dimming disabled (zero timeout). -/
def ctxNoDim : LoopCtx := ⟨false, 0, 600, 60, 0, fun _ => none, fun _ => "0.0"⟩

/-- A concrete all-failing sensor outcome. -/
def inp0 : SensorInput := ⟨none, none, none, "0.0", "0.0"⟩

/-- A concrete fan controller with the documented thresholds, fan off. -/
def fc70 : FanController := ⟨70, 60, false⟩

/-- Witness for C3: zero timeout never dims; at timeout 300 the tick at
t=300 dims exactly once; at t=100 nothing is issued; a dimmed screen stays
dimmed over a tick and along the trace. -/
theorem C3_dim_latch_witness :
    ((tickPure ctxNoDim 400 inp0 (initState 0) fc70).2.2.filter
        Cmd.isSetBrightness = [] ∧
      (tickPure ctxNoDim 400 inp0 (initState 0) fc70).1.screen_dimmed =
        (initState 0).screen_dimmed) ∧
    ((tickPure ctxDim 300 inp0 (initState 0) fc70).2.2.filter
        Cmd.isSetBrightness = [Cmd.setBrightness true] ∧
      (tickPure ctxDim 300 inp0 (initState 0) fc70).1.screen_dimmed = true) ∧
    ((tickPure ctxDim 100 inp0 (initState 0) fc70).2.2.filter
        Cmd.isSetBrightness = [] ∧
      (tickPure ctxDim 100 inp0 (initState 0) fc70).1.screen_dimmed = false) ∧
    ((tickPure ctxDim 400 inp0 { initState 0 with screen_dimmed := true }
        fc70).2.2.filter Cmd.isSetBrightness = [] ∧
      (tickPure ctxDim 400 inp0 { initState 0 with screen_dimmed := true }
        fc70).1.screen_dimmed = true) ∧
    (pureLoop ctxDim (fun i => 5 * i) (fun _ => inp0)
      { initState 0 with screen_dimmed := true } fc70 1).1.screen_dimmed = true :=
  ⟨C3_dim_latch.2.1 ctxNoDim 400 inp0 (initState 0) fc70 rfl,
   C3_dim_latch.2.2.1 ctxDim 300 inp0 (initState 0) fc70 (by decide) rfl (by decide),
   C3_dim_latch.2.2.2.1 ctxDim 100 inp0 (initState 0) fc70 rfl (by decide),
   C3_dim_latch.2.2.2.2.1 ctxDim 400 inp0
     { initState 0 with screen_dimmed := true } fc70 rfl,
   C3_dim_latch.2.2.2.2.2 ctxDim (fun i => 5 * i) (fun _ => inp0)
     { initState 0 with screen_dimmed := true } fc70 0 1 (by decide) rfl⟩

/-- Claim C7: sensor failures are non-fatal with safe defaults.  Stats
gathering is a total function — there is no error path.  A failed read or
parse of the temperature file yields `cpu_temp = 0`; a failed, unsuccessful,
undecodable or empty-output IP lookup yields "0.0.0.0"; the same hostname
lookup failures yield "UNKNOWN"; and for every sensor outcome the tick
completes (with no hardware failure) so the loop continues. -/
theorem C7_sensor_defaults :
    (∀ (p : String → Option ℚ) (f : ℚ → String) (inp : SensorInput),
      inp.temp_file = none → (gather_stats p f inp).cpu_temp = 0) ∧
    (∀ (p : String → Option ℚ) (f : ℚ → String) (inp : SensorInput)
        (c : String), inp.temp_file = some c → p (rustTrim c) = none →
      (gather_stats p f inp).cpu_temp = 0) ∧
    (∀ (p : String → Option ℚ) (f : ℚ → String) (inp : SensorInput),
      inp.ip_cmd = none → (gather_stats p f inp).ip_address = "0.0.0.0") ∧
    (∀ (p : String → Option ℚ) (f : ℚ → String) (inp : SensorInput)
        (o : Option String), inp.ip_cmd = some (false, o) →
      (gather_stats p f inp).ip_address = "0.0.0.0") ∧
    (∀ (p : String → Option ℚ) (f : ℚ → String) (inp : SensorInput),
      inp.ip_cmd = some (true, none) →
      (gather_stats p f inp).ip_address = "0.0.0.0") ∧
    (∀ (p : String → Option ℚ) (f : ℚ → String) (inp : SensorInput)
        (str : String), inp.ip_cmd = some (true, some str) →
      splitWhitespace str = [] →
      (gather_stats p f inp).ip_address = "0.0.0.0") ∧
    (∀ (p : String → Option ℚ) (f : ℚ → String) (inp : SensorInput),
      inp.host_cmd = none → (gather_stats p f inp).hostname = "UNKNOWN") ∧
    (∀ (p : String → Option ℚ) (f : ℚ → String) (inp : SensorInput)
        (o : Option String), inp.host_cmd = some (false, o) →
      (gather_stats p f inp).hostname = "UNKNOWN") ∧
    (∀ (p : String → Option ℚ) (f : ℚ → String) (inp : SensorInput),
      inp.host_cmd = some (true, none) →
      (gather_stats p f inp).hostname = "UNKNOWN") ∧
    (∀ (ctx : LoopCtx) (now : ℕ) (inp : SensorInput) (s : AppState)
        (fc : FanController), ∃ r, tick ctx noErr now inp s fc = .ok r) := by
  refine ⟨?_, ?_, ?_, ?_, ?_, ?_, ?_, ?_, ?_, ?_⟩
  · intro p f inp h
    simp [gather_stats, get_cpu_temperature, h]
  · intro p f inp c h1 h2
    simp [gather_stats, get_cpu_temperature, h1, h2]
  · intro p f inp h
    simp [gather_stats, get_ip_address, h]; decide
  · intro p f inp o h
    simp [gather_stats, get_ip_address, h]; decide
  · intro p f inp h
    simp [gather_stats, get_ip_address, h]; decide
  · intro p f inp str h1 h2
    simp [gather_stats, get_ip_address, h1, h2]; decide
  · intro p f inp h
    simp [gather_stats, get_hostname, h]; decide
  · intro p f inp o h
    simp [gather_stats, get_hostname, h]; decide
  · intro p f inp h
    simp [gather_stats, get_hostname, h]; decide
  · intro ctx now inp s fc
    exact ⟨tickPure ctx now inp s fc, tick_noErr ctx now inp s fc⟩

/-- Witness for C7 on concrete failed sensor outcomes: missing temperature
file, unparsable temperature file, each IP/hostname failure mode, and
whitespace-only IP output. -/
theorem C7_sensor_defaults_witness :
    (gather_stats (fun _ => none) (fun _ => "0.0") inp0).cpu_temp = 0 ∧
    (gather_stats (fun _ => none) (fun _ => "0.0")
      ⟨some "garbage", none, none, "0.0", "0.0"⟩).cpu_temp = 0 ∧
    (gather_stats (fun _ => none) (fun _ => "0.0") inp0).ip_address = "0.0.0.0" ∧
    (gather_stats (fun _ => none) (fun _ => "0.0")
      ⟨none, some (false, some "x"), none, "0.0", "0.0"⟩).ip_address = "0.0.0.0" ∧
    (gather_stats (fun _ => none) (fun _ => "0.0")
      ⟨none, some (true, none), none, "0.0", "0.0"⟩).ip_address = "0.0.0.0" ∧
    (gather_stats (fun _ => none) (fun _ => "0.0")
      ⟨none, some (true, some "  "), none, "0.0", "0.0"⟩).ip_address = "0.0.0.0" ∧
    (gather_stats (fun _ => none) (fun _ => "0.0") inp0).hostname = "UNKNOWN" ∧
    (gather_stats (fun _ => none) (fun _ => "0.0")
      ⟨none, none, some (false, none), "0.0", "0.0"⟩).hostname = "UNKNOWN" ∧
    (gather_stats (fun _ => none) (fun _ => "0.0")
      ⟨none, none, some (true, none), "0.0", "0.0"⟩).hostname = "UNKNOWN" ∧
    (∃ r, tick ctxDim noErr 0 inp0 (initState 0) fc70 = .ok r) :=
  ⟨C7_sensor_defaults.1 (fun _ => none) (fun _ => "0.0") inp0 rfl,
   C7_sensor_defaults.2.1 (fun _ => none) (fun _ => "0.0")
     ⟨some "garbage", none, none, "0.0", "0.0"⟩ "garbage" rfl rfl,
   C7_sensor_defaults.2.2.1 (fun _ => none) (fun _ => "0.0") inp0 rfl,
   C7_sensor_defaults.2.2.2.1 (fun _ => none) (fun _ => "0.0")
     ⟨none, some (false, some "x"), none, "0.0", "0.0"⟩ (some "x") rfl,
   C7_sensor_defaults.2.2.2.2.1 (fun _ => none) (fun _ => "0.0")
     ⟨none, some (true, none), none, "0.0", "0.0"⟩ rfl,
   C7_sensor_defaults.2.2.2.2.2.1 (fun _ => none) (fun _ => "0.0")
     ⟨none, some (true, some "  "), none, "0.0", "0.0"⟩ "  " rfl (by decide),
   C7_sensor_defaults.2.2.2.2.2.2.1 (fun _ => none) (fun _ => "0.0") inp0 rfl,
   C7_sensor_defaults.2.2.2.2.2.2.2.1 (fun _ => none) (fun _ => "0.0")
     ⟨none, none, some (false, none), "0.0", "0.0"⟩ none rfl,
   C7_sensor_defaults.2.2.2.2.2.2.2.2.1 (fun _ => none) (fun _ => "0.0")
     ⟨none, none, some (true, none), "0.0", "0.0"⟩ rfl,
   C7_sensor_defaults.2.2.2.2.2.2.2.2.2 ctxDim 0 inp0 (initState 0) fc70⟩

theorem handle_screen_timeout_eq (err : Cmd → Bool) (st now td : ℕ) (s : AppState) :
    handle_screen_timeout err st now td s =
      if td > 0 ∧ ¬s.screen_dimmed ∧ now - st ≥ td then
        (if err (Cmd.setBrightness true) then .error (Cmd.setBrightness true)
         else .ok ({ s with screen_dimmed := true }, [Cmd.setBrightness true]))
      else .ok (s, []) := by
  unfold handle_screen_timeout runCmd
  dsimp only
  cases herr : err (Cmd.setBrightness true) <;>
    simp [herr, bind, Except.bind, pure, Except.pure]

theorem handle_periodic_display_eq (err : Cmd → Bool) (e : Bool)
    (now on_d off_d : ℕ) (s : AppState) :
    handle_periodic_display err e now on_d off_d s =
      if e then
        if s.is_display_periodically_on ∧ now - s.last_periodic_toggle_time ≥ on_d then
          (if err Cmd.powerOff then .error Cmd.powerOff
           else .ok ({ s with is_display_periodically_on := false,
                              last_periodic_toggle_time := now }, [Cmd.powerOff]))
        else if ¬s.is_display_periodically_on ∧
            now - s.last_periodic_toggle_time ≥ off_d then
          (if err Cmd.powerOn then .error Cmd.powerOn
           else .ok ({ s with is_display_periodically_on := true,
                              last_periodic_toggle_time := now }, [Cmd.powerOn]))
        else .ok (s, [])
      else .ok (s, []) := by
  unfold handle_periodic_display runCmd
  dsimp only
  cases herr1 : err Cmd.powerOff <;> cases herr2 : err Cmd.powerOn <;>
    simp [herr1, herr2, bind, Except.bind, pure, Except.pure]

theorem handle_fan_control_eq (err : Cmd → Bool) (fc : FanController) (t : ℚ) :
    handle_fan_control err fc t =
      if fc.is_running then
        if t ≤ fc.temp_off then
          (if err Cmd.fanOff then .error Cmd.fanOff
           else .ok ({ fc with is_running := false }, [Cmd.fanOff]))
        else .ok (fc, [])
      else if t ≥ fc.temp_on then
        (if err Cmd.fanOn then .error Cmd.fanOn
         else .ok ({ fc with is_running := true }, [Cmd.fanOn]))
      else .ok (fc, []) := by
  unfold handle_fan_control FanController.fan_on FanController.fan_off runCmd
  cases herr1 : err Cmd.fanOff <;> cases herr2 : err Cmd.fanOn <;>
    simp [herr1, herr2, bind, Except.bind, pure, Except.pure]

theorem handle_screen_timeout_error (err : Cmd → Bool) (st now td : ℕ)
    (s : AppState) (e : Cmd)
    (h : handle_screen_timeout err st now td s = .error e) : err e = true := by
  rw [handle_screen_timeout_eq] at h
  split at h
  · split at h
    · cases h
      assumption
    · cases h
  · cases h

theorem handle_screen_timeout_ok_cmds (err : Cmd → Bool) (st now td : ℕ)
    (s s' : AppState) (cs : List Cmd)
    (h : handle_screen_timeout err st now td s = .ok (s', cs)) :
    ∀ c ∈ cs, err c = false := by
  rw [handle_screen_timeout_eq] at h
  split at h
  · split at h
    · cases h
    · rename_i he
      cases h
      intro c hc
      simp only [List.mem_singleton] at hc
      subst hc
      simpa using he
  · cases h
    intro c hc
    cases hc

theorem handle_periodic_display_error (err : Cmd → Bool) (e : Bool)
    (now on_d off_d : ℕ) (s : AppState) (x : Cmd)
    (h : handle_periodic_display err e now on_d off_d s = .error x) :
    err x = true := by
  rw [handle_periodic_display_eq] at h
  split at h
  · split at h
    · split at h
      · cases h
        assumption
      · cases h
    · split at h
      · split at h
        · cases h
          assumption
        · cases h
      · cases h
  · cases h

theorem handle_periodic_display_ok_cmds (err : Cmd → Bool) (e : Bool)
    (now on_d off_d : ℕ) (s s' : AppState) (cs : List Cmd)
    (h : handle_periodic_display err e now on_d off_d s = .ok (s', cs)) :
    ∀ c ∈ cs, err c = false := by
  rw [handle_periodic_display_eq] at h
  split at h
  · split at h
    · split at h
      · cases h
      · rename_i he
        cases h
        intro c hc
        simp only [List.mem_singleton] at hc
        subst hc
        simpa using he
    · split at h
      · split at h
        · cases h
        · rename_i he
          cases h
          intro c hc
          simp only [List.mem_singleton] at hc
          subst hc
          simpa using he
      · cases h
        intro c hc
        cases hc
  · cases h
    intro c hc
    cases hc

theorem handle_fan_control_error (err : Cmd → Bool) (fc : FanController)
    (t : ℚ) (x : Cmd)
    (h : handle_fan_control err fc t = .error x) : err x = true := by
  rw [handle_fan_control_eq] at h
  split at h
  · split at h
    · split at h
      · cases h
        assumption
      · cases h
    · cases h
  · split at h
    · split at h
      · cases h
        assumption
      · cases h
    · cases h

theorem handle_fan_control_ok_cmds (err : Cmd → Bool) (fc fc' : FanController)
    (t : ℚ) (cs : List Cmd)
    (h : handle_fan_control err fc t = .ok (fc', cs)) :
    ∀ c ∈ cs, err c = false := by
  rw [handle_fan_control_eq] at h
  split at h
  · split at h
    · split at h
      · cases h
      · rename_i he
        cases h
        intro c hc
        simp only [List.mem_singleton] at hc
        subst hc
        simpa using he
    · cases h
      intro c hc
      cases hc
  · split at h
    · split at h
      · cases h
      · rename_i he
        cases h
        intro c hc
        simp only [List.mem_singleton] at hc
        subst hc
        simpa using he
    · cases h
      intro c hc
      cases hc

theorem tick_error (ctx : LoopCtx) (err : Cmd → Bool) (now : ℕ)
    (inp : SensorInput) (s : AppState) (fc : FanController) (e : Cmd)
    (h : tick ctx err now inp s fc = .error e) : err e = true := by
  unfold tick at h
  simp only [bind, Except.bind] at h
  cases h1 : handle_screen_timeout err ctx.start_time now ctx.screen_timeout_duration s with
  | error e1 =>
    rw [h1] at h
    cases h
    exact handle_screen_timeout_error err _ _ _ _ _ h1
  | ok p1 =>
    obtain ⟨s1, c1⟩ := p1
    rw [h1] at h
    dsimp only at h
    cases h2 : handle_periodic_display err ctx.enable_periodic_off now
        ctx.periodic_on_duration ctx.periodic_off_duration s1 with
    | error e2 =>
      rw [h2] at h
      cases h
      exact handle_periodic_display_error err _ _ _ _ _ _ h2
    | ok p2 =>
      obtain ⟨s2, c2⟩ := p2
      rw [h2] at h
      dsimp only at h
      cases h3 : handle_fan_control err fc (gather_stats ctx.parseF32 ctx.fmt1 inp).cpu_temp with
      | error e3 =>
        rw [h3] at h
        cases h
        exact handle_fan_control_error err _ _ _ h3
      | ok p3 =>
        obtain ⟨fc3, c3⟩ := p3
        rw [h3] at h
        dsimp only at h
        split at h
        · simp only [runCmd, bind, Except.bind, pure, Except.pure] at h
          cases hrc : err (Cmd.render (gather_stats ctx.parseF32 ctx.fmt1 inp).ip_address
              (gather_stats ctx.parseF32 ctx.fmt1 inp).cpu_usage
              (gather_stats ctx.parseF32 ctx.fmt1 inp).cpu_temp_str
              (gather_stats ctx.parseF32 ctx.fmt1 inp).ram_usage
              (gather_stats ctx.parseF32 ctx.fmt1 inp).hostname
              (update_pixel_shift now 60 shift_pattern s2).shift_offset) with
          | true =>
            simp only [hrc, if_true] at h
            cases h
            exact hrc
          | false =>
            simp only [hrc, if_false] at h
            cases h
        · simp only [pure, Except.pure] at h
          cases h

theorem tick_ok_cmds (ctx : LoopCtx) (err : Cmd → Bool) (now : ℕ)
    (inp : SensorInput) (s : AppState) (fc : FanController) (s' : AppState)
    (fc' : FanController) (cmds : List Cmd)
    (h : tick ctx err now inp s fc = .ok (s', fc', cmds)) :
    ∀ c ∈ cmds, err c = false := by
  unfold tick at h
  simp only [bind, Except.bind] at h
  cases h1 : handle_screen_timeout err ctx.start_time now ctx.screen_timeout_duration s with
  | error e1 =>
    rw [h1] at h
    cases h
  | ok p1 =>
    obtain ⟨s1, c1⟩ := p1
    rw [h1] at h
    dsimp only at h
    cases h2 : handle_periodic_display err ctx.enable_periodic_off now
        ctx.periodic_on_duration ctx.periodic_off_duration s1 with
    | error e2 =>
      rw [h2] at h
      cases h
    | ok p2 =>
      obtain ⟨s2, c2⟩ := p2
      rw [h2] at h
      dsimp only at h
      cases h3 : handle_fan_control err fc (gather_stats ctx.parseF32 ctx.fmt1 inp).cpu_temp with
      | error e3 =>
        rw [h3] at h
        cases h
      | ok p3 =>
        obtain ⟨fc3, c3⟩ := p3
        rw [h3] at h
        dsimp only at h
        split at h
        · rename_i hflag
          simp only [runCmd, bind, Except.bind, pure, Except.pure] at h
          split at h
          · cases h
          · rename_i hrc
            cases h
            intro c hc
            simp only [List.mem_append] at hc
            rcases hc with hc | hc | hc | hc
            · exact handle_screen_timeout_ok_cmds err _ _ _ _ _ _ h1 c hc
            · exact handle_periodic_display_ok_cmds err _ _ _ _ _ _ _ h2 c hc
            · exact handle_fan_control_ok_cmds err _ _ _ _ h3 c hc
            · simp only [List.mem_singleton] at hc
              subst hc
              simpa using hrc
        · simp only [pure, Except.pure] at h
          cases h
          intro c hc
          simp only [List.mem_append] at hc
          rcases hc with hc | hc | hc | hc
          · exact handle_screen_timeout_ok_cmds err _ _ _ _ _ _ h1 c hc
          · exact handle_periodic_display_ok_cmds err _ _ _ _ _ _ _ h2 c hc
          · exact handle_fan_control_ok_cmds err _ _ _ _ h3 c hc
          · cases hc

theorem loopState_error_propagates (ctx : LoopCtx) (err : Cmd → Bool)
    (times : ℕ → ℕ) (inps : ℕ → SensorInput) (s0 : AppState)
    (fc0 : FanController) (n k : ℕ) (e : Cmd)
    (h : loopState ctx err times inps s0 fc0 n = .error e) :
    loopState ctx err times inps s0 fc0 (n + k) = .error e := by
  induction k with
  | zero => exact h
  | succ k ih =>
    show loopState ctx err times inps s0 fc0 ((n + k) + 1) = .error e
    rw [loopState, ih]

/-- A failure oracle under which only the dimming call fails. -/
def errBrightness : Cmd → Bool := fun c => decide (c = Cmd.setBrightness true)

/-- Claim C6: hardware actuation errors are fatal.  Any failing sink call
(brightness, display power, fan write, render) surfaces as the tick's error
(conjunct 1, and only failing calls do: a completed tick contains no failing
call, conjunct 2); once a tick errors, every later loop iteration returns the
same error, so no further tick executes (conjunct 3); and a failure of the
first sink call of a tick aborts the whole tick with that error before any
later step runs (conjunct 4).  There is no retry or fallback anywhere. -/
theorem C6_fatal_hardware_errors :
    (∀ (ctx : LoopCtx) (err : Cmd → Bool) (now : ℕ) (inp : SensorInput)
        (s : AppState) (fc : FanController) (e : Cmd),
      tick ctx err now inp s fc = .error e → err e = true) ∧
    (∀ (ctx : LoopCtx) (err : Cmd → Bool) (now : ℕ) (inp : SensorInput)
        (s : AppState) (fc : FanController) (s' : AppState)
        (fc' : FanController) (cmds : List Cmd),
      tick ctx err now inp s fc = .ok (s', fc', cmds) →
      ∀ c ∈ cmds, err c = false) ∧
    (∀ (ctx : LoopCtx) (err : Cmd → Bool) (times : ℕ → ℕ)
        (inps : ℕ → SensorInput) (s0 : AppState) (fc0 : FanController)
        (n k : ℕ) (e : Cmd),
      loopState ctx err times inps s0 fc0 n = .error e →
      loopState ctx err times inps s0 fc0 (n + k) = .error e) ∧
    (∀ (ctx : LoopCtx) (err : Cmd → Bool) (now : ℕ) (inp : SensorInput)
        (s : AppState) (fc : FanController),
      0 < ctx.screen_timeout_duration → s.screen_dimmed = false →
      now - ctx.start_time ≥ ctx.screen_timeout_duration →
      err (Cmd.setBrightness true) = true →
      tick ctx err now inp s fc = .error (Cmd.setBrightness true)) := by
  refine ⟨tick_error, tick_ok_cmds, loopState_error_propagates, ?_⟩
  intro ctx err now inp s fc h1 h2 h3 h4
  unfold tick
  simp only [bind, Except.bind]
  rw [handle_screen_timeout_eq]
  rw [if_pos ⟨h1, by simp [h2], h3⟩, if_pos h4]

/-- Witness for C6: with only the dimming call failing, the tick at uptime
300s under a 300s timeout errors with that command; the same error persists
at loop index 2 after arising at index 1; and a no-failure tick's commands
all succeed. -/
theorem C6_fatal_hardware_errors_witness :
    errBrightness (Cmd.setBrightness true) = true ∧
    noErr (Cmd.setBrightness true) = false ∧
    loopState ctxDim errBrightness (fun i => 300 + i) (fun _ => inp0)
      (initState 0) fc70 (1 + 1) = .error (Cmd.setBrightness true) ∧
    tick ctxDim errBrightness 300 inp0 (initState 0) fc70 =
      .error (Cmd.setBrightness true) :=
  ⟨C6_fatal_hardware_errors.1 ctxDim errBrightness 300 inp0 (initState 0) fc70
      (Cmd.setBrightness true) (by rfl),
   C6_fatal_hardware_errors.2.1 ctxDim noErr 300 inp0 (initState 0) fc70
      _ _ _ (tick_noErr ctxDim 300 inp0 (initState 0) fc70)
      (Cmd.setBrightness true) (by decide),
   C6_fatal_hardware_errors.2.2.1 ctxDim errBrightness (fun i => 300 + i)
      (fun _ => inp0) (initState 0) fc70 1 1 (Cmd.setBrightness true) (by rfl),
   C6_fatal_hardware_errors.2.2.2 ctxDim errBrightness 300 inp0 (initState 0)
      fc70 (by decide) rfl (by decide) (by decide)⟩

/-- The action of the periodic step on the pair
(`is_display_periodically_on`, `last_periodic_toggle_time`) alone. -/
def periodicFL (e : Bool) (now on_d off_d : ℕ) (fl : Bool × ℕ) : Bool × ℕ :=
  if e then
    if fl.1 ∧ now - fl.2 ≥ on_d then (false, now)
    else if ¬fl.1 ∧ now - fl.2 ≥ off_d then (true, now)
    else fl
  else fl

theorem periodicPure_fl (e : Bool) (n a b : ℕ) (s : AppState) :
    ((periodicPure e n a b s).1.is_display_periodically_on,
      (periodicPure e n a b s).1.last_periodic_toggle_time) =
      periodicFL e n a b
        (s.is_display_periodically_on, s.last_periodic_toggle_time) := by
  unfold periodicPure periodicFL
  dsimp only
  split <;> [skip; rfl]
  split <;> [rfl; split <;> rfl]

theorem tickPure_fl (ctx : LoopCtx) (now : ℕ) (inp : SensorInput)
    (s : AppState) (fc : FanController) :
    ((tickPure ctx now inp s fc).1.is_display_periodically_on,
      (tickPure ctx now inp s fc).1.last_periodic_toggle_time) =
      periodicFL ctx.enable_periodic_off now ctx.periodic_on_duration
        ctx.periodic_off_duration
        (s.is_display_periodically_on, s.last_periodic_toggle_time) := by
  simp only [tickPure]
  rw [update_pixel_shift_periodic_flag, update_pixel_shift_toggle_time,
    periodicPure_fl, screenTimeoutPure_periodic_flag,
    screenTimeoutPure_toggle_time]

/-- Iterates of `periodicFL` along a time sequence. -/
def periodicFLTrace (e : Bool) (on_d off_d : ℕ) (times : ℕ → ℕ)
    (fl0 : Bool × ℕ) : ℕ → Bool × ℕ
  | 0 => fl0
  | n + 1 =>
    periodicFL e (times n) on_d off_d
      (periodicFLTrace e on_d off_d times fl0 n)

theorem pureLoop_fl (ctx : LoopCtx) (times : ℕ → ℕ) (inps : ℕ → SensorInput)
    (s0 : AppState) (fc0 : FanController) (n : ℕ) :
    ((pureLoop ctx times inps s0 fc0 n).1.is_display_periodically_on,
      (pureLoop ctx times inps s0 fc0 n).1.last_periodic_toggle_time) =
      periodicFLTrace ctx.enable_periodic_off ctx.periodic_on_duration
        ctx.periodic_off_duration times
        (s0.is_display_periodically_on, s0.last_periodic_toggle_time) n := by
  induction n with
  | zero => rfl
  | succ n ih =>
    have h := tickPure_fl ctx (times n) (inps n)
      (pureLoop ctx times inps s0 fc0 n).1 (pureLoop ctx times inps s0 fc0 n).2
    simp only [pureLoop, periodicFLTrace]
    rw [h, ih]


theorem periodicFL_cases (now on_d off_d : ℕ) (fl : Bool × ℕ) :
    periodicFL true now on_d off_d fl =
      if fl.1 then (if now - fl.2 ≥ on_d then (false, now) else fl)
      else (if now - fl.2 ≥ off_d then (true, now) else fl) := by
  rcases fl with ⟨b, t⟩
  cases b <;> simp [periodicFL]

theorem periodicFLTrace_inv (on_d off_d t0 d : ℕ) (h_on : 0 < on_d)
    (h_off : 0 < off_d) (n : ℕ) :
    (periodicFLTrace true on_d off_d (fun k => t0 + d * k) (true, t0) (n + 1)).2
        ≤ t0 + d * n ∧
    ((periodicFLTrace true on_d off_d (fun k => t0 + d * k) (true, t0) (n + 1)).1 = true →
      (t0 + d * n) -
        (periodicFLTrace true on_d off_d (fun k => t0 + d * k) (true, t0) (n + 1)).2 < on_d) ∧
    ((periodicFLTrace true on_d off_d (fun k => t0 + d * k) (true, t0) (n + 1)).1 = false →
      (t0 + d * n) -
        (periodicFLTrace true on_d off_d (fun k => t0 + d * k) (true, t0) (n + 1)).2 < off_d) := by
  induction n with
  | zero =>
    have h0 : periodicFLTrace true on_d off_d (fun k => t0 + d * k) (true, t0) (0 + 1) =
        (true, t0) := by
      show periodicFL true (t0 + d * 0) on_d off_d (true, t0) = (true, t0)
      rw [periodicFL_cases]
      have hc : ¬ t0 + d * 0 - (true, t0).2 ≥ on_d := by simp; omega
      simp [hc]
      omega
    rw [h0]
    refine ⟨by omega, fun _ => by simp; omega, fun hf => by simp at hf⟩
  | succ n ih =>
    obtain ⟨ih1, ih2, ih3⟩ := ih
    have hstep : periodicFLTrace true on_d off_d (fun k => t0 + d * k) (true, t0) (n + 1 + 1) =
        periodicFL true (t0 + d * (n + 1)) on_d off_d
          (periodicFLTrace true on_d off_d (fun k => t0 + d * k) (true, t0) (n + 1)) := rfl
    set g := periodicFLTrace true on_d off_d (fun k => t0 + d * k) (true, t0) (n + 1) with hg
    have hT : t0 + d * (n + 1) = t0 + d * n + d := by ring
    rw [hstep, periodicFL_cases, hT]
    cases hfl : g.1 with
    | true =>
      have h2 := ih2 hfl
      rw [if_pos rfl]
      split
      · exact ⟨by omega, fun hf => by simp at hf, fun _ => by omega⟩
      · rename_i hc
        exact ⟨by omega, fun _ => by omega,
          fun hf => by rw [hfl] at hf; simp at hf⟩
    | false =>
      have h3 := ih3 hfl
      rw [if_neg (by simp)]
      split
      · exact ⟨by omega, fun _ => by omega, fun hf => by simp at hf⟩
      · rename_i hc
        exact ⟨by omega, fun hf => by rw [hfl] at hf; simp at hf,
          fun _ => by omega⟩

/-- Claim C8: periodic cycle bounds.  Along the loop trace with ticks spaced
one nominal refresh interval `d` apart (the sleep is the nominal interval and
in-tick I/O time is modelled as zero), with cycling enabled and positive
durations: while periodically on at a tick, the elapsed on-time is under
`on_duration`; at the tick where the display turns off the full on-phase
lasted at most `on_duration + d`; symmetrically for the off-phase with
`off_duration + d`.  So the display is never periodically on (resp. off)
longer than the configured duration plus one tick interval. -/
theorem C8_periodic_cycle_bounds (ctx : LoopCtx) (t0 d : ℕ)
    (inps : ℕ → SensorInput) (fc0 : FanController)
    (h_en : ctx.enable_periodic_off = true)
    (h_on : 0 < ctx.periodic_on_duration)
    (h_off : 0 < ctx.periodic_off_duration) (n : ℕ) :
    ((pureLoop ctx (fun k => t0 + d * k) inps (initState t0) fc0
        (n + 1)).1.is_display_periodically_on = true →
      (t0 + d * n) - (pureLoop ctx (fun k => t0 + d * k) inps (initState t0)
        fc0 (n + 1)).1.last_periodic_toggle_time < ctx.periodic_on_duration) ∧
    ((pureLoop ctx (fun k => t0 + d * k) inps (initState t0) fc0
        (n + 1)).1.is_display_periodically_on = false →
      (t0 + d * n) - (pureLoop ctx (fun k => t0 + d * k) inps (initState t0)
        fc0 (n + 1)).1.last_periodic_toggle_time < ctx.periodic_off_duration) ∧
    ((pureLoop ctx (fun k => t0 + d * k) inps (initState t0) fc0
        (n + 1)).1.is_display_periodically_on = true →
      (pureLoop ctx (fun k => t0 + d * k) inps (initState t0) fc0
        (n + 2)).1.is_display_periodically_on = false →
      (t0 + d * (n + 1)) - (pureLoop ctx (fun k => t0 + d * k) inps
        (initState t0) fc0 (n + 1)).1.last_periodic_toggle_time ≤
        ctx.periodic_on_duration + d) ∧
    ((pureLoop ctx (fun k => t0 + d * k) inps (initState t0) fc0
        (n + 1)).1.is_display_periodically_on = false →
      (pureLoop ctx (fun k => t0 + d * k) inps (initState t0) fc0
        (n + 2)).1.is_display_periodically_on = true →
      (t0 + d * (n + 1)) - (pureLoop ctx (fun k => t0 + d * k) inps
        (initState t0) fc0 (n + 1)).1.last_periodic_toggle_time ≤
        ctx.periodic_off_duration + d) := by
  have hfl := pureLoop_fl ctx (fun k => t0 + d * k) inps (initState t0) fc0 (n + 1)
  rw [h_en] at hfl
  have hinit : ((initState t0).is_display_periodically_on,
      (initState t0).last_periodic_toggle_time) = (true, t0) := rfl
  rw [hinit] at hfl
  have hfst := congrArg Prod.fst hfl
  have hsnd := congrArg Prod.snd hfl
  dsimp only at hfst hsnd
  obtain ⟨hinv1, hinv2, hinv3⟩ := periodicFLTrace_inv ctx.periodic_on_duration
    ctx.periodic_off_duration t0 d h_on h_off n
  rw [hfst, hsnd]
  have hT : t0 + d * (n + 1) = t0 + d * n + d := by ring
  refine ⟨hinv2, hinv3, fun h _ => ?_, fun h _ => ?_⟩
  · have := hinv2 h
    omega
  · have := hinv3 h
    omega

/-- A concrete loop configuration with periodic cycling enabled: 2s on, 1s
off, no dim timeout. -/
def ctxPeriodic : LoopCtx := ⟨true, 0, 2, 1, 0, fun _ => none, fun _ => "0.0"⟩

/-- Witness for C8 with on=2s, off=1s, 1s ticks from t=0: concrete bounds at
the ticks around both transitions. -/
theorem C8_periodic_cycle_bounds_witness :
    ((0 + 1 * 1) - (pureLoop ctxPeriodic (fun k => 0 + 1 * k) (fun _ => inp0)
        (initState 0) fc70 (1 + 1)).1.last_periodic_toggle_time <
      ctxPeriodic.periodic_on_duration) ∧
    ((0 + 1 * (1 + 1)) - (pureLoop ctxPeriodic (fun k => 0 + 1 * k)
        (fun _ => inp0) (initState 0) fc70 (1 + 1)).1.last_periodic_toggle_time ≤
      ctxPeriodic.periodic_on_duration + 1) ∧
    ((0 + 1 * 2) - (pureLoop ctxPeriodic (fun k => 0 + 1 * k) (fun _ => inp0)
        (initState 0) fc70 (2 + 1)).1.last_periodic_toggle_time <
      ctxPeriodic.periodic_off_duration) ∧
    ((0 + 1 * (2 + 1)) - (pureLoop ctxPeriodic (fun k => 0 + 1 * k)
        (fun _ => inp0) (initState 0) fc70 (2 + 1)).1.last_periodic_toggle_time ≤
      ctxPeriodic.periodic_off_duration + 1) :=
  ⟨(C8_periodic_cycle_bounds ctxPeriodic 0 1 (fun _ => inp0) fc70 rfl
      (by decide) (by decide) 1).1 (by decide),
   (C8_periodic_cycle_bounds ctxPeriodic 0 1 (fun _ => inp0) fc70 rfl
      (by decide) (by decide) 1).2.2.1 (by decide) (by decide),
   (C8_periodic_cycle_bounds ctxPeriodic 0 1 (fun _ => inp0) fc70 rfl
      (by decide) (by decide) 2).2.1 (by decide),
   (C8_periodic_cycle_bounds ctxPeriodic 0 1 (fun _ => inp0) fc70 rfl
      (by decide) (by decide) 2).2.2.2 (by decide) (by decide)⟩
